import Mathlib

set_option maxRecDepth 4000

/-!
Verification development for the credit agreement chatbot
(src/credit_agreement_chatbot.py), a RAG pipeline built around the class
CreditAgreementChatbot.  The Python source is shallowly embedded below:

* pure helper methods (_identify_document_type, _extract_section_info)
  become Lean functions over character lists;
* the mutable object state (vector_store, qa_chain, last_refresh, the
  persisted directory) becomes an explicit ChatbotState record;
* external collaborators (the two DirectoryLoaders, FAISS build / save /
  load, the RetrievalQA invocation, the clock) become fields of an Env
  record carrying their outcome for the call in question; a Python
  exception is modelled by an Option String / Except String result that
  the embedded control flow threads exactly as the try/except blocks in
  the source do.

Text is modelled as List Char, timestamps as Int seconds.
-/

namespace CreditChatbot

/-- Python str.lower on a character list (the classifier only compares
against ASCII patterns). -/
def lowerStr (cs : List Char) : List Char := cs.map Char.toLower

/-- Python substring containment, `pat in cs`. -/
def containsSub : List Char → List Char → Bool
  | [], pat => pat.isEmpty
  | c :: cs, pat => pat.isPrefixOf (c :: cs) || containsSub cs pat

/-- Embedding of CreditAgreementChatbot._identify_document_type
(src lines 214-235): lowercase the text, then an if/elif chain of
substring tests; note the second branch also accepts the phrase
loan agreement. -/
def identify_document_type (text : List Char) : String :=
  let text_lower := lowerStr text
  if containsSub text_lower ("compliance certificate".data) then
    "Compliance Certificate"
  else if containsSub text_lower ("credit agreement".data)
      || containsSub text_lower ("loan agreement".data) then
    "Credit Agreement"
  else if containsSub text_lower ("credit application".data) then
    "Credit Application"
  else if containsSub text_lower ("lsta".data) then
    "LSTA Agreement"
  else
    "Credit Document"

/-- The regex whitespace class of the patterns in _extract_section_info,
restricted to its ASCII members. -/
def isSpaceChar (c : Char) : Bool :=
  c = ' ' || c = '\t' || c = '\n' || c = '\r' || c = '\x0b' || c = '\x0c'

/-- ASCII decimal digit, the regex class backslash-d. -/
def isDigitChar (c : Char) : Bool := '0' ≤ c && c ≤ '9'

/-- Roman numeral letters, the regex class [IVXLCDM]. -/
def isRomanChar (c : Char) : Bool :=
  c = 'I' || c = 'V' || c = 'X' || c = 'L' || c = 'C' || c = 'D' || c = 'M'

/-- Matcher for the regex fragment of the SECTION patterns: one or more
digits, an optional dot, then zero or more digits (all greedy; the
character classes are disjoint, so maximal munch is exact).  Returns the
matched text and the remaining input. -/
def matchNumber (cs : List Char) : Option (List Char × List Char) :=
  match cs.span isDigitChar with
  | ([], _) => none
  | (ds, rest) =>
    match rest with
    | '.' :: rest2 =>
      match rest2.span isDigitChar with
      | (ds2, rest3) => some (ds ++ '.' :: ds2, rest3)
    | _ => some (ds, rest)

/-- Matcher for the regex fragment of the ARTICLE patterns: one or more
roman numeral letters, or else one or more digits (the alternatives have
disjoint first characters). -/
def matchRomanOrNum (cs : List Char) : Option (List Char × List Char) :=
  match cs.span isRomanChar with
  | ([], _) =>
    match cs.span isDigitChar with
    | ([], _) => none
    | (ds, rest) => some (ds, rest)
  | (rs, rest) => some (rs, rest)

/-- Try to match one section pattern at the current position: the keyword,
then at least one whitespace character, then the numeric part.  Returns
the full matched text (regex group 0). -/
def matchKwAt (kw : List Char) (num : List Char → Option (List Char × List Char))
    (cs : List Char) : Option (List Char) :=
  if kw.isPrefixOf cs then
    match (cs.drop kw.length).span isSpaceChar with
    | ([], _) => none
    | (ws, rest) =>
      match num rest with
      | some (body, _) => some (kw ++ ws ++ body)
      | none => none
  else none

/-- Python re.search for one pattern: scan positions left to right and
return the first (leftmost) match. -/
def searchPat (kw : List Char) (num : List Char → Option (List Char × List Char)) :
    List Char → Option (List Char)
  | [] => matchKwAt kw num []
  | c :: rest =>
    match matchKwAt kw num (c :: rest) with
    | some m => some m
    | none => searchPat kw num rest

/-- The four patterns of _extract_section_info (src lines 250-255), in
source order. -/
def sectionPatterns :
    List (List Char × (List Char → Option (List Char × List Char))) :=
  [("SECTION".data, matchNumber), ("Section".data, matchNumber),
   ("ARTICLE".data, matchRomanOrNum), ("Article".data, matchRomanOrNum)]

/-- The for loop of _extract_section_info: try each pattern in order,
return the first match found. -/
def findFirstPat :
    List (List Char × (List Char → Option (List Char × List Char))) →
      List Char → Option (List Char)
  | [], _ => none
  | (kw, num) :: ps, t =>
    match searchPat kw num t with
    | some m => some m
    | none => findFirstPat ps t

/-- Embedding of CreditAgreementChatbot._extract_section_info
(src lines 237-262): search the first 500 characters of the chunk for the
four section / article patterns and return the first full match. -/
def extract_section_info (text : List Char) : Option (List Char) :=
  findFirstPat sectionPatterns (text.take 500)

theorem searchPat_eq_none_iff (kw : List Char)
    (num : List Char → Option (List Char × List Char)) (cs : List Char) :
    searchPat kw num cs = none ↔ ∀ i : Nat, matchKwAt kw num (cs.drop i) = none := by
  induction cs with
  | nil =>
    simp only [searchPat, List.drop_nil]
    exact ⟨fun h _ => h, fun h => h 0⟩
  | cons c cs ih =>
    rw [searchPat]
    cases h : matchKwAt kw num (c :: cs) with
    | some m =>
      simp only
      constructor
      · intro hc; cases hc
      · intro hall
        have h0 := hall 0
        rw [List.drop_zero] at h0
        rw [h0] at h
        cases h
    | none =>
      simp only
      rw [ih]
      constructor
      · intro hall i
        cases i with
        | zero => rw [List.drop_zero]; exact h
        | succ j => rw [List.drop_succ_cons]; exact hall j
      · intro hall i
        have := hall (i + 1)
        rw [List.drop_succ_cons] at this
        exact this

theorem findFirstPat_eq_none_iff
    (ps : List (List Char × (List Char → Option (List Char × List Char))))
    (t : List Char) :
    findFirstPat ps t = none ↔ ∀ p ∈ ps, searchPat p.1 p.2 t = none := by
  induction ps with
  | nil => simp [findFirstPat]
  | cons p ps ih =>
    obtain ⟨kw, num⟩ := p
    rw [findFirstPat]
    cases h : searchPat kw num t with
    | some m =>
      simp only [List.mem_cons]
      constructor
      · intro hc; cases hc
      · intro hall
        have := hall (kw, num) (Or.inl rfl)
        rw [this] at h
        cases h
    | none =>
      simp only [List.mem_cons]
      rw [ih]
      constructor
      · intro hall q hq
        rcases hq with hq | hq
        · subst hq; exact h
        · exact hall q hq
      · intro hall q hq
        exact hall q (Or.inr hq)

/-- Claim C5: for every input text, the classifier returns exactly one of the
five labels (Compliance Certificate, Credit Agreement, Credit Application,
LSTA Agreement, Credit Document), chosen by case-insensitive substring
matching checked in that priority order, the first matching rule winning and
unmatched text falling to the default Credit Document.  The Credit Agreement
rule of the source matches either of the phrases credit agreement and
loan agreement. -/
theorem identify_document_type_spec (text : List Char) :
    identify_document_type text ∈
      ["Compliance Certificate", "Credit Agreement", "Credit Application",
        "LSTA Agreement", "Credit Document"]
    ∧ (∀ t : List Char, lowerStr text = lowerStr t →
        identify_document_type text = identify_document_type t)
    ∧ (containsSub (lowerStr text) ("compliance certificate".data) = true →
        identify_document_type text = "Compliance Certificate")
    ∧ (containsSub (lowerStr text) ("compliance certificate".data) = false →
        (containsSub (lowerStr text) ("credit agreement".data) = true ∨
          containsSub (lowerStr text) ("loan agreement".data) = true) →
        identify_document_type text = "Credit Agreement")
    ∧ (containsSub (lowerStr text) ("compliance certificate".data) = false →
        containsSub (lowerStr text) ("credit agreement".data) = false →
        containsSub (lowerStr text) ("loan agreement".data) = false →
        containsSub (lowerStr text) ("credit application".data) = true →
        identify_document_type text = "Credit Application")
    ∧ (containsSub (lowerStr text) ("compliance certificate".data) = false →
        containsSub (lowerStr text) ("credit agreement".data) = false →
        containsSub (lowerStr text) ("loan agreement".data) = false →
        containsSub (lowerStr text) ("credit application".data) = false →
        containsSub (lowerStr text) ("lsta".data) = true →
        identify_document_type text = "LSTA Agreement")
    ∧ (containsSub (lowerStr text) ("compliance certificate".data) = false →
        containsSub (lowerStr text) ("credit agreement".data) = false →
        containsSub (lowerStr text) ("loan agreement".data) = false →
        containsSub (lowerStr text) ("credit application".data) = false →
        containsSub (lowerStr text) ("lsta".data) = false →
        identify_document_type text = "Credit Document") := by
  refine ⟨?_, ?_, ?_, ?_, ?_, ?_, ?_⟩
  · simp only [identify_document_type]
    split_ifs <;> simp
  · intro t h
    unfold identify_document_type
    rw [h]
  · intro h1
    simp [identify_document_type, h1]
  · intro h1 h2
    rcases h2 with h2 | h2 <;> simp [identify_document_type, h1, h2]
  · intro h1 h2 h3 h4
    simp [identify_document_type, h1, h2, h3, h4]
  · intro h1 h2 h3 h4 h5
    simp [identify_document_type, h1, h2, h3, h4, h5]
  · intro h1 h2 h3 h4 h5
    simp [identify_document_type, h1, h2, h3, h4, h5]

/-- Claim C5 witness: a text matched by the second rule through the phrase
loan agreement, at a concrete input. -/
theorem identify_document_type_spec_witness :
    identify_document_type ("Signed LOAN AGREEMENT no 7".data) = "Credit Agreement" :=
  (identify_document_type_spec ("Signed LOAN AGREEMENT no 7".data)).2.2.2.1
    (by decide) (Or.inr (by decide))

/-- Claim C6: the section extractor scans only the first 500 characters of
the chunk, trying the four patterns (SECTION / Section followed by a number,
ARTICLE / Article followed by a roman numeral or a number) in order; it
returns none exactly when no pattern matches at any position of that prefix,
and when the first pattern has a match, that full match text is returned.
The embedding is a pure function, so determinism holds by construction. -/
theorem extract_section_info_spec (text : List Char) :
    extract_section_info text = extract_section_info (text.take 500)
    ∧ ((extract_section_info text = none) ↔
        ∀ p ∈ sectionPatterns, ∀ i : Nat,
          matchKwAt p.1 p.2 ((text.take 500).drop i) = none)
    ∧ (∀ m, searchPat ("SECTION".data) matchNumber (text.take 500) = some m →
        extract_section_info text = some m)
    ∧ (∀ m, searchPat ("SECTION".data) matchNumber (text.take 500) = none →
        searchPat ("Section".data) matchNumber (text.take 500) = some m →
        extract_section_info text = some m)
    ∧ (∀ m, searchPat ("SECTION".data) matchNumber (text.take 500) = none →
        searchPat ("Section".data) matchNumber (text.take 500) = none →
        searchPat ("ARTICLE".data) matchRomanOrNum (text.take 500) = some m →
        extract_section_info text = some m)
    ∧ (∀ m, searchPat ("SECTION".data) matchNumber (text.take 500) = none →
        searchPat ("Section".data) matchNumber (text.take 500) = none →
        searchPat ("ARTICLE".data) matchRomanOrNum (text.take 500) = none →
        searchPat ("Article".data) matchRomanOrNum (text.take 500) = some m →
        extract_section_info text = some m) := by
  refine ⟨?_, ?_, ?_, ?_, ?_, ?_⟩
  · unfold extract_section_info
    rw [List.take_take, min_self]
  · unfold extract_section_info
    rw [findFirstPat_eq_none_iff]
    exact forall_congr' fun p => imp_congr_right fun _ =>
      searchPat_eq_none_iff p.1 p.2 _
  · intro m h1
    unfold extract_section_info sectionPatterns
    rw [findFirstPat, h1]
  · intro m h1 h2
    unfold extract_section_info sectionPatterns
    simp only [findFirstPat, h1, h2]
  · intro m h1 h2 h3
    unfold extract_section_info sectionPatterns
    simp only [findFirstPat, h1, h2, h3]
  · intro m h1 h2 h3 h4
    unfold extract_section_info sectionPatterns
    simp only [findFirstPat, h1, h2, h3, h4]

/-- Claim C6 witness: the first pattern matches in a concrete chunk and its
full match text is returned. -/
theorem extract_section_info_spec_witness :
    extract_section_info ("Loans. SECTION 7.2 Leverage Ratio".data) =
      some ("SECTION 7.2".data) :=
  (extract_section_info_spec ("Loans. SECTION 7.2 Leverage Ratio".data)).2.2.1
    ("SECTION 7.2".data) (by decide)

/-- Chunk size configured in __init__ (src line 71). -/
def chunk_size : Nat := 1200

/-- Chunk overlap configured in __init__ (src line 72). -/
def chunk_overlap : Nat := 200

/-- Separator priority list configured in __init__ (src lines 74-84),
highest priority first; the final empty-string separator of the source is
the hard character cut, which appears below as the fallback of splitLen. -/
def separators : List (List Char) :=
  ["\n\n".data, "\n".data, "SECTION".data, "Section".data,
    "ARTICLE".data, "Article".data, ". ".data, " ".data]

/-- Modelled from the spec: the splitting algorithm itself
(RecursiveCharacterTextSplitter) is external library code absent from src/
and is described by spec section 4.1.  For the current window this gives
the largest admissible cut position at which the given separator starts; a
cut is admissible when it lies within the size budget and past the
overlap, so that every step makes progress. -/
def sepCut (cs sep : List Char) : Option Nat :=
  ((List.range (chunk_size + 1)).filter
    (fun p => decide (chunk_overlap < p) && sep.isPrefixOf (cs.drop p))).getLast?

/-- Modelled from the spec: try the separators in priority order and cut at
the first that admits a boundary (spec section 4.1, boundary priority
order); with no boundary found, fall back to the hard cut at chunk_size. -/
def boundaryCut (cs : List Char) : Nat :=
  match separators.findSome? (fun sep => sepCut cs sep) with
  | some p => p
  | none => chunk_size

/-- Modelled from the spec: the realised cut length, clamped into the
interval from chunk_overlap exclusive to chunk_size inclusive, so the
splitter stays within the size budget and always terminates (spec section
4.1, no infinite loop even if no boundary is found). -/
def splitLen (cs : List Char) : Nat :=
  let p := boundaryCut cs
  if chunk_overlap < p ∧ p ≤ chunk_size then p else chunk_size

/-- Modelled from the spec: one pass of the splitter over the document
text; the fuel argument bounds the number of produced chunks (the input
length always suffices), giving a structurally recursive embedding. -/
def chunkTextAux : Nat → List Char → List (List Char)
  | 0, cs => [cs]
  | fuel + 1, cs =>
    if cs.length ≤ chunk_size then [cs]
    else
      cs.take (splitLen cs) ::
        chunkTextAux fuel (cs.drop (splitLen cs - chunk_overlap))

/-- Modelled from the spec: split a document text into chunks of at most
chunk_size characters, consecutive chunks overlapping by chunk_overlap
characters (spec section 4.1). -/
def chunkText (cs : List Char) : List (List Char) := chunkTextAux cs.length cs

/-- Remove the overlap duplication from a non-initial chunk. -/
def dropOverlap (c : List Char) : List Char := c.drop chunk_overlap

/-- Concatenation of chunks after removing the overlap duplication. -/
def dechunk : List (List Char) → List Char
  | [] => []
  | c :: rest => c ++ (rest.map dropOverlap).flatten

theorem splitLen_bounds (cs : List Char) :
    chunk_overlap < splitLen cs ∧ splitLen cs ≤ chunk_size := by
  simp only [splitLen]
  split_ifs with h
  · exact h
  · exact ⟨by decide, le_refl _⟩

theorem chunkTextAux_base (fuel : Nat) (cs : List Char)
    (h : cs.length ≤ chunk_size) : chunkTextAux fuel cs = [cs] := by
  cases fuel with
  | zero => rfl
  | succ fuel => rw [chunkTextAux, if_pos h]

theorem drop_take_append_drop (cs : List Char) (k n : Nat) (hk : k ≤ n)
    (hn : n ≤ cs.length) :
    (cs.take n).drop k ++ cs.drop n = cs.drop k := by
  have h1 : k ≤ (cs.take n).length := by
    rw [List.length_take]
    omega
  conv_rhs => rw [← List.take_append_drop n cs, List.drop_append_of_le_length h1]

theorem chunkTextAux_join (fuel : Nat) :
    ∀ cs : List Char, cs.length ≤ fuel →
      ((chunkTextAux fuel cs).map dropOverlap).flatten = cs.drop chunk_overlap := by
  induction fuel with
  | zero =>
    intro cs h
    have hnil : cs = [] := List.length_eq_zero.mp (Nat.le_zero.mp h)
    subst hnil
    rfl
  | succ fuel ih =>
    intro cs h
    by_cases hc : cs.length ≤ chunk_size
    · rw [chunkTextAux_base _ _ hc]
      simp [dropOverlap]
    · rw [chunkTextAux, if_neg hc]
      have hb := splitLen_bounds cs
      have hlen : (cs.drop (splitLen cs - chunk_overlap)).length ≤ fuel := by
        rw [List.length_drop]
        omega
      rw [List.map_cons, List.flatten_cons, ih _ hlen, List.drop_drop]
      have h2 : splitLen cs - chunk_overlap + chunk_overlap = splitLen cs := by
        omega
      rw [h2]
      exact drop_take_append_drop cs chunk_overlap (splitLen cs)
        (le_of_lt hb.1) (by omega)

theorem chunkTextAux_dechunk (fuel : Nat) :
    ∀ cs : List Char, cs.length ≤ fuel → dechunk (chunkTextAux fuel cs) = cs := by
  induction fuel with
  | zero =>
    intro cs h
    have hnil : cs = [] := List.length_eq_zero.mp (Nat.le_zero.mp h)
    subst hnil
    rfl
  | succ fuel ih =>
    intro cs h
    by_cases hc : cs.length ≤ chunk_size
    · rw [chunkTextAux_base _ _ hc]
      simp [dechunk]
    · rw [chunkTextAux, if_neg hc]
      have hb := splitLen_bounds cs
      have hlen : (cs.drop (splitLen cs - chunk_overlap)).length ≤ fuel := by
        rw [List.length_drop]
        omega
      rw [dechunk, chunkTextAux_join fuel _ hlen, List.drop_drop]
      have h2 : splitLen cs - chunk_overlap + chunk_overlap = splitLen cs := by
        omega
      rw [h2]
      exact List.take_append_drop _ _

/-- Claim C9: chunking loses no characters: concatenating the produced
chunks after removing the overlap duplication reconstructs the document
content exactly, and a document no longer than the configured chunk size of
1200 characters yields exactly one chunk.  The splitter is external library
code, so this is proved of the spec-modelled chunker above. -/
theorem chunk_coverage (cs : List Char) :
    dechunk (chunkText cs) = cs
    ∧ (cs.length ≤ chunk_size → chunkText cs = [cs]) :=
  ⟨chunkTextAux_dechunk cs.length cs (le_refl _),
    fun h => chunkTextAux_base cs.length cs h⟩

/-- Claim C9 witness: a concrete short document is reconstructed exactly and
forms a single chunk. -/
theorem chunk_coverage_witness :
    dechunk (chunkText ("Section 1.1 Defined Terms".data)) =
        "Section 1.1 Defined Terms".data
    ∧ chunkText ("Section 1.1 Defined Terms".data) =
        ["Section 1.1 Defined Terms".data] :=
  ⟨(chunk_coverage ("Section 1.1 Defined Terms".data)).1,
    (chunk_coverage ("Section 1.1 Defined Terms".data)).2 (by decide)⟩

/-- A raw document as returned by the loaders: page_content plus the
metadata keys used by the source (source path, page, and the filename and
file_type keys later added by _load_documents). -/
structure Document where
  content : List Char
  source : String
  page : Option Nat
  filename : String
  file_type : String
  deriving DecidableEq

/-- A processed chunk with the metadata attached by _preprocess_documents. -/
structure Chunk where
  content : List Char
  filename : String
  file_type : String
  page : Option Nat
  document_type : String
  chunk_id : Nat
  total_chunks : Nat
  section_label : Option (List Char)
  deriving DecidableEq

/-- The persisted vector store directory, per the layout the source itself
relies on (src line 104 probes index.faiss) and spec section 6: a
vector-index file and a metadata store; each holds the chunk list of the
build that wrote it, or is absent. -/
structure Disk where
  faiss : Option (List Chunk)
  pkl : Option (List Chunk)
  deriving DecidableEq

/-- The mutable state of a CreditAgreementChatbot object, plus the
persisted directory and two instrumentation counters (number of
_refresh_documents invocations, number of warnings logged). -/
structure ChatbotState where
  refresh_interval : Int
  vector_store : Option (List Chunk)
  qa_chain : Option (List Chunk)
  last_refresh : Option Int
  disk : Disk
  refresh_count : Nat
  warn_count : Nat
  deriving DecidableEq

/-- Outcome of the external save_local call: completed, raised before any
write, or raised between the two file writes. -/
inductive SaveOutcome where
  | ok : SaveOutcome
  | crashBefore : String → SaveOutcome
  | crashBetween : String → SaveOutcome
  deriving DecidableEq

/-- Outcomes of the external collaborators for one call into the chatbot:
the two DirectoryLoaders (an error models the exception their load raises,
which with the default silent_errors=False a single unparsable file
already triggers), the FAISS build, the save, the deserialization of a
structurally intact persisted store, the RetrievalQA invocation (answer
text plus retrieved source documents), and the clock. -/
structure Env where
  pdf_load : Except String (List Document)
  docx_load : Except String (List Document)
  build_raise : Option String
  save_outcome : SaveOutcome
  load_local_ok : Bool
  qa_result : Except String (String × List Chunk)
  now : Int

/-- Python Path(...).name, for the POSIX paths the loaders produce. -/
def pathName (s : String) : String := (s.splitOn "/").getLastD s

/-- Python Path(...).suffix for the dotted filenames produced by the
source globs. -/
def pathSuffix (s : String) : String :=
  match (pathName s).splitOn "." with
  | [] => ""
  | [_] => ""
  | parts => "." ++ parts.getLastD ""

/-- The metadata enhancement loop of _load_documents (src lines 159-162). -/
def enhanceDoc (d : Document) : Document :=
  { d with filename := pathName d.source, file_type := pathSuffix d.source }

/-- Embedding of _load_documents (src lines 125-169): both loader calls
sit inside one try block; any exception from either loader is caught,
logged, and the function returns the empty list, otherwise the pdf
documents followed by the docx documents are returned with enhanced
metadata. -/
def loadDocuments (env : Env) : List Document :=
  match env.pdf_load, env.docx_load with
  | Except.ok pdfs, Except.ok docxs => (pdfs ++ docxs).map enhanceDoc
  | _, _ => []

/-- The per-document body of _preprocess_documents (src lines 185-209):
classify the document, split it, and attach chunk metadata. -/
def chunksOfDoc (d : Document) : List Chunk :=
  let doc_type := identify_document_type d.content
  let pieces := chunkText d.content
  pieces.enum.map (fun p =>
    { content := p.2, filename := d.filename, file_type := d.file_type,
      page := d.page, document_type := doc_type, chunk_id := p.1,
      total_chunks := pieces.length,
      section_label := extract_section_info p.2 })

/-- Embedding of _preprocess_documents (src lines 171-212). -/
def preprocessDocuments (docs : List Document) : List Chunk :=
  (docs.map chunksOfDoc).flatten

/-- Modelled from the spec for the library internals: save_local writes
the vector-index file and then the metadata store directly into the vector
store path (spec section 6 layout); the call site (src line 287) passes
the final path, so the writes are in place and the environment decides
whether the call completes or raises before or between the two writes. -/
def saveLocal (env : Env) (disk : Disk) (idx : List Chunk) :
    Disk × Option String :=
  match env.save_outcome with
  | SaveOutcome.ok => ({ faiss := some idx, pkl := some idx }, none)
  | SaveOutcome.crashBefore e => (disk, some e)
  | SaveOutcome.crashBetween e => ({ disk with faiss := some idx }, some e)

/-- Modelled from the spec for the library internals: load_local fails
when the persisted files are absent or unreadable (spec section 4.3,
IndexCorruptOrMissing); a mismatched pair of files left by an interrupted
save is unreadable. -/
def loadLocal (env : Env) (disk : Disk) : Except String (List Chunk) :=
  match disk.faiss, disk.pkl with
  | some a, some b =>
    if a = b then
      if env.load_local_ok then Except.ok a
      else Except.error "could not deserialize vector store"
    else Except.error "vector store files are inconsistent"
  | _, _ => Except.error "vector store files missing"

/-- Embedding of _refresh_documents (src lines 264-290): load, bail out
with a warning on an empty corpus, build, assign vector_store, save in
place, and only then advance last_refresh.  The second component carries
the exception when a step raises; state changes made before the raise are
kept, as in Python. -/
def refreshDocuments (env : Env) (st : ChatbotState) :
    ChatbotState × Option String :=
  let st1 := { st with refresh_count := st.refresh_count + 1 }
  let documents := loadDocuments env
  if documents.isEmpty then
    ({ st1 with warn_count := st1.warn_count + 1 }, none)
  else
    let processed := preprocessDocuments documents
    match env.build_raise with
    | some e => (st1, some e)
    | none =>
      let st2 := { st1 with vector_store := some processed }
      let sres := saveLocal env st2.disk processed
      let st3 := { st2 with disk := sres.1 }
      match sres.2 with
      | some e => (st3, some e)
      | none => ({ st3 with last_refresh := some env.now }, none)

/-- Embedding of _initialize_qa_chain (src lines 306-349): builds the
RetrievalQA chain over self.vector_store.as_retriever(); when
vector_store is None the attribute access raises. -/
def initializeQAChain (st : ChatbotState) : ChatbotState × Option String :=
  match st.vector_store with
  | none => (st, some "AttributeError: NoneType object has no attribute as_retriever")
  | some vs => ({ st with qa_chain := some vs }, none)

/-- Embedding of _initialize_vector_store (src lines 102-123): when the
persisted marker file exists, try to load it and on success stamp
last_refresh; on a load error, or with no persisted store, rebuild; then
initialize the QA chain (skipped when the rebuild raised, since the
exception propagates). -/
def initializeVectorStore (env : Env) (st : ChatbotState) :
    ChatbotState × Option String :=
  let first :=
    if st.disk.faiss.isSome then
      match loadLocal env st.disk with
      | Except.ok idx =>
          ({ st with vector_store := some idx, last_refresh := some env.now },
            none)
      | Except.error _ => refreshDocuments env st
    else
      refreshDocuments env st
  match first.2 with
  | some e => (first.1, some e)
  | none => initializeQAChain first.1

/-- Embedding of _check_and_refresh (src lines 292-304): with last_refresh
unset, rebuild and return; otherwise rebuild and reinitialize the QA chain
exactly when the elapsed time has reached refresh_interval. -/
def checkAndRefresh (env : Env) (st : ChatbotState) :
    ChatbotState × Option String :=
  match st.last_refresh with
  | none => refreshDocuments env st
  | some t =>
    if st.refresh_interval ≤ env.now - t then
      let r := refreshDocuments env st
      match r.2 with
      | some e => (r.1, some e)
      | none => initializeQAChain r.1
    else (st, none)

/-- A source citation as assembled by query (src lines 372-381). -/
structure SourceCitation where
  filename : String
  page : Option Nat
  section_label : Option (List Char)
  document_type : String
  content_preview : List Char
  deriving DecidableEq

/-- The dictionary query returns (src lines 370-383 and 389-393). -/
structure QueryResult where
  answer : String
  sources : List SourceCitation
  timestamp : Int
  deriving DecidableEq

/-- The citation record built for one retrieved chunk (src lines 373-379),
with the content preview truncated to 200 characters. -/
def mkCitation (c : Chunk) : SourceCitation :=
  { filename := c.filename, page := c.page, section_label := c.section_label,
    document_type := c.document_type,
    content_preview := c.content.take 200 ++ ("...".data) }

/-- The call self.qa_chain({"query": question}) inside query: calling a
None qa_chain raises a TypeError; otherwise the chain is external and its
outcome comes from the environment. -/
def runQAChain (env : Env) (st : ChatbotState) :
    Except String (String × List Chunk) :=
  match st.qa_chain with
  | none => Except.error "TypeError: NoneType object is not callable"
  | some _ => env.qa_result

/-- Embedding of query (src lines 351-393): the staleness check and
rebuild run before the try block, so an exception there propagates to the
caller (modelled by the Except.error result); inside the try block a
failure of the chain invocation degrades to a result whose answer
describes the error and whose sources list is empty. -/
def query (env : Env) (st : ChatbotState) (_question : String) :
    ChatbotState × Except String QueryResult :=
  let c := checkAndRefresh env st
  match c.2 with
  | some e => (c.1, Except.error e)
  | none =>
    match runQAChain env c.1 with
    | Except.ok r =>
        (c.1, Except.ok
          { answer := r.1, sources := r.2.map mkCitation,
            timestamp := env.now })
    | Except.error e =>
        (c.1, Except.ok
          { answer := "I encountered an error processing your question: " ++ e,
            sources := [], timestamp := env.now })

/-- Embedding of manual_refresh (src lines 395-399): refresh, then
reinitialize the QA chain; an exception from either step propagates. -/
def manualRefresh (env : Env) (st : ChatbotState) :
    ChatbotState × Option String :=
  let r := refreshDocuments env st
  match r.2 with
  | some e => (r.1, some e)
  | none => initializeQAChain r.1

/-- A concrete loaded document used by witnesses and counterexamples. -/
def doc0 : Document :=
  { content := ("This Credit Agreement. SECTION 1.1 Defined Terms").data,
    source := "docs/a.pdf", page := some 0, filename := "", file_type := "" }

/-- The freshly constructed object state before _initialize_vector_store
runs (src lines 55-97): default refresh interval of 3600 seconds, no
vector store, no QA chain, no persisted directory. -/
def st0 : ChatbotState :=
  { refresh_interval := 3600, vector_store := none, qa_chain := none,
    last_refresh := none, disk := { faiss := none, pkl := none },
    refresh_count := 0, warn_count := 0 }

/-- An environment where every collaborator succeeds. -/
def envGood : Env :=
  { pdf_load := Except.ok [doc0], docx_load := Except.ok [],
    build_raise := none, save_outcome := SaveOutcome.ok,
    load_local_ok := true,
    qa_result := Except.ok ("The commitment is 100,000,000.", []), now := 0 }

/-- The state of a chatbot whose construction succeeded against envGood. -/
def stInit : ChatbotState := (initializeVectorStore envGood st0).1

/-- Characterization of _refresh_documents by cases on the outcomes of its
collaborators; shared by the proofs below. -/
theorem refreshDocuments_eq (env : Env) (st : ChatbotState) :
    refreshDocuments env st =
      if loadDocuments env = [] then
        ({ st with refresh_count := st.refresh_count + 1,
                   warn_count := st.warn_count + 1 }, none)
      else
        match env.build_raise with
        | some e => ({ st with refresh_count := st.refresh_count + 1 }, some e)
        | none =>
          match env.save_outcome with
          | SaveOutcome.ok =>
              ({ st with refresh_count := st.refresh_count + 1,
                         vector_store := some (preprocessDocuments (loadDocuments env)),
                         disk := { faiss := some (preprocessDocuments (loadDocuments env)),
                                   pkl := some (preprocessDocuments (loadDocuments env)) },
                         last_refresh := some env.now }, none)
          | SaveOutcome.crashBefore e =>
              ({ st with refresh_count := st.refresh_count + 1,
                         vector_store := some (preprocessDocuments (loadDocuments env)) },
                some e)
          | SaveOutcome.crashBetween e =>
              ({ st with refresh_count := st.refresh_count + 1,
                         vector_store := some (preprocessDocuments (loadDocuments env)),
                         disk := { faiss := some (preprocessDocuments (loadDocuments env)),
                                   pkl := st.disk.pkl } }, some e) := by
  unfold refreshDocuments saveLocal
  by_cases hl : loadDocuments env = []
  · simp [hl]
  · rw [if_neg hl]
    cases hb : env.build_raise with
    | some e => simp [List.isEmpty_iff, hl]
    | none =>
      cases hs : env.save_outcome <;> simp [List.isEmpty_iff, hl]

theorem refreshDocuments_count (env : Env) (st : ChatbotState) :
    (refreshDocuments env st).1.refresh_count = st.refresh_count + 1 := by
  rw [refreshDocuments_eq]
  by_cases hl : loadDocuments env = [] <;> cases hb : env.build_raise <;>
    cases hs : env.save_outcome <;> simp_all

theorem initializeQAChain_frame (st : ChatbotState) :
    (initializeQAChain st).1.refresh_count = st.refresh_count
    ∧ (initializeQAChain st).1.vector_store = st.vector_store
    ∧ (initializeQAChain st).1.disk = st.disk
    ∧ (initializeQAChain st).1.last_refresh = st.last_refresh
    ∧ (initializeQAChain st).1.warn_count = st.warn_count := by
  unfold initializeQAChain
  cases hsv : st.vector_store <;> simp [hsv]

/-- An environment whose FAISS build raises, at a time past the refresh
interval of stInit. -/
def envBuildFail : Env :=
  { envGood with build_raise := some "embedding service unavailable",
                 now := 5000 }

/-- An environment whose chain invocation fails, at a time within the
refresh interval of stInit. -/
def envQaDown : Env :=
  { envGood with qa_result := Except.error "rate limit", now := 100 }

/-- Claim C1 counterexample: against a successfully initialized chatbot, a
query arriving after the refresh interval triggers a rebuild whose build
step fails; the exception propagates out of query to the caller instead of
being returned as an error-carrying QueryResult, because the staleness
check and rebuild run before the try block of query. -/
theorem query_raises_on_refresh_failure :
    (query envBuildFail stInit "What is the commitment?").2 =
      Except.error "embedding service unavailable" := by
  rfl

/-- Claim C1 (amended): a failure inside the try block of query (the chain
invocation, covering the retrieval search and the answer generation, and
also a missing chain) degrades to a normally returned QueryResult whose
answer describes the error and whose sources list is empty; but a failure
of the staleness check / rebuild step raises to the caller, because that
step precedes the try block. -/
theorem query_error_handling (env : Env) (st : ChatbotState) (q : String) :
    (∀ e, (checkAndRefresh env st).2 = some e →
      (query env st q).2 = Except.error e)
    ∧ ((checkAndRefresh env st).2 = none →
        (∀ e, runQAChain env (checkAndRefresh env st).1 = Except.error e →
          (query env st q).2 = Except.ok
            { answer := "I encountered an error processing your question: " ++ e,
              sources := [], timestamp := env.now })
        ∧ (∀ a srcs,
            runQAChain env (checkAndRefresh env st).1 = Except.ok (a, srcs) →
            (query env st q).2 = Except.ok
              { answer := a, sources := srcs.map mkCitation,
                timestamp := env.now })) := by
  constructor
  · intro e he
    simp only [query, he]
  · intro h0
    constructor
    · intro e he
      simp only [query, h0, he]
    · intro a srcs hok
      simp only [query, h0, hok]

/-- Claim C1 witness: a degraded result on an answer generation failure, at
a concrete input. -/
theorem query_error_handling_witness :
    (query envQaDown stInit "q").2 = Except.ok
      { answer := "I encountered an error processing your question: rate limit",
        sources := [], timestamp := 100 } :=
  ((query_error_handling envQaDown stInit "q").2 rfl).1 "rate limit" rfl

/-- A chunk standing for the content of a previously persisted index. -/
def chunkA : Chunk :=
  { content := "old indexed text".data, filename := "old.pdf",
    file_type := ".pdf", page := some 3, document_type := "Credit Document",
    chunk_id := 0, total_chunks := 1, section_label := none }

/-- A fresh object state whose vector store directory already holds a
valid persisted index. -/
def stDisk : ChatbotState :=
  { st0 with disk := { faiss := some [chunkA], pkl := some [chunkA] } }

/-- The all-success environment at time 42. -/
def envLoad : Env := { envGood with now := 42 }

/-- Claim C2 counterexample: initialization loads the previously persisted
index and stamps last_refresh with the current time (src line 112)
although no rebuild ran. -/
theorem load_advances_last_refresh :
    (initializeVectorStore envLoad stDisk).1.last_refresh = some 42
    ∧ (initializeVectorStore envLoad stDisk).1.refresh_count = 0
    ∧ stDisk.last_refresh = none :=
  ⟨rfl, rfl, rfl⟩

/-- Claim C2 (amended): last_refresh advances exactly on successful rebuild
completion and on a successful load of a previously persisted index at
initialization; a rebuild that raises, and a rebuild over an empty corpus,
leave it unchanged. -/
theorem last_refresh_updates (env : Env) (st : ChatbotState) :
    (∀ e, (refreshDocuments env st).2 = some e →
      (refreshDocuments env st).1.last_refresh = st.last_refresh)
    ∧ (loadDocuments env = [] →
        (refreshDocuments env st).1.last_refresh = st.last_refresh)
    ∧ (loadDocuments env ≠ [] → (refreshDocuments env st).2 = none →
        (refreshDocuments env st).1.last_refresh = some env.now)
    ∧ (∀ idx, loadLocal env st.disk = Except.ok idx → st.disk.faiss.isSome →
        (initializeVectorStore env st).1.last_refresh = some env.now) := by
  refine ⟨?_, ?_, ?_, ?_⟩
  · intro e he
    rw [refreshDocuments_eq] at he ⊢
    by_cases hl : loadDocuments env = [] <;> cases hb : env.build_raise <;>
      cases hs : env.save_outcome <;> simp_all
  · intro hl
    rw [refreshDocuments_eq, if_pos hl]
  · intro hl hok
    rw [refreshDocuments_eq] at hok ⊢
    cases hb : env.build_raise <;> cases hs : env.save_outcome <;> simp_all
  · intro idx hload hsome
    unfold initializeVectorStore
    rw [if_pos hsome, hload]
    simp [initializeQAChain]

/-- Claim C2 witness: a rebuild whose save raises does not advance
last_refresh, at a concrete input. -/
theorem last_refresh_updates_witness :
    (refreshDocuments
        { envGood with save_outcome := SaveOutcome.crashBefore "io error" }
        stInit).1.last_refresh = stInit.last_refresh :=
  (last_refresh_updates
      { envGood with save_outcome := SaveOutcome.crashBefore "io error" }
      stInit).1 "io error" rfl

/-- An environment where the pdf loader returns a document and the docx
loader raises (as its default configuration does when one file fails to
parse). -/
def envDocxFail : Env :=
  { envGood with docx_load := Except.error "Docx2txtLoader: file is not a zip file",
                 now := 3 }

/-- Claim C3 counterexample: the pdf loader returns a document and the docx
loader raises; _load_documents catches the exception and returns the empty
batch, so the successfully loaded document is not included in the returned
document list. -/
theorem loader_failure_aborts_batch :
    loadDocuments envDocxFail = []
    ∧ envDocxFail.pdf_load = Except.ok [doc0] :=
  ⟨rfl, rfl⟩

/-- Claim C3 (amended): an exception from either directory loader aborts
the whole batch: _load_documents catches it, logs, and returns the empty
list, discarding the documents the other loader produced; only when both
loaders succeed are all their documents returned, with filename and
file_type metadata attached. -/
theorem load_documents_all_or_nothing (env : Env) :
    (∀ pdfs docxs, env.pdf_load = Except.ok pdfs →
      env.docx_load = Except.ok docxs →
      loadDocuments env = (pdfs ++ docxs).map enhanceDoc)
    ∧ (∀ e, env.pdf_load = Except.error e → loadDocuments env = [])
    ∧ (∀ e, env.docx_load = Except.error e → loadDocuments env = []) := by
  unfold loadDocuments
  refine ⟨fun pdfs docxs h1 h2 => ?_, fun e h1 => ?_, fun e h1 => ?_⟩ <;>
    cases hp : env.pdf_load <;> cases hd : env.docx_load <;> simp_all

/-- Claim C3 witness: both loaders succeed and every loaded document is
returned enhanced, at a concrete input. -/
theorem load_documents_all_or_nothing_witness :
    loadDocuments envGood = [enhanceDoc doc0] :=
  (load_documents_all_or_nothing envGood).1 [doc0] [] rfl rfl

/-- An environment whose save raises between the two file writes. -/
def envCrashMid : Env :=
  { envGood with save_outcome := SaveOutcome.crashBetween "disk full",
                 now := 7 }

/-- Claim C4 counterexample: starting from a valid persisted index, a
rebuild whose save raises between the two file writes leaves the persisted
directory holding the new vector-index file next to the old metadata
store: a partially written index that no longer loads, so the previously
valid persisted index is corrupted; there is no temporary location and no
swap. -/
theorem persist_not_atomic :
    (refreshDocuments envCrashMid stDisk).1.disk =
      { faiss := some (preprocessDocuments [enhanceDoc doc0]),
        pkl := some [chunkA] }
    ∧ preprocessDocuments [enhanceDoc doc0] ≠ [chunkA]
    ∧ loadLocal envGood stDisk.disk = Except.ok [chunkA]
    ∧ loadLocal envGood (refreshDocuments envCrashMid stDisk).1.disk =
        Except.error "vector store files are inconsistent" :=
  ⟨rfl, by decide, rfl, rfl⟩

/-- Claim C4 (amended): the build persists by writing the index files
directly into the vector store path, with no temporary location and no
swap: a completed save fully replaces the persisted index; a save that
raises before writing leaves the directory unchanged; a save that raises
between the two writes leaves a mixed, partially written directory pairing
the new vector-index file with the old metadata store. -/
theorem persist_in_place (env : Env) (st : ChatbotState)
    (hne : loadDocuments env ≠ []) (hb : env.build_raise = none) :
    (env.save_outcome = SaveOutcome.ok →
      (refreshDocuments env st).1.disk =
        { faiss := some (preprocessDocuments (loadDocuments env)),
          pkl := some (preprocessDocuments (loadDocuments env)) })
    ∧ (∀ e, env.save_outcome = SaveOutcome.crashBefore e →
        (refreshDocuments env st).1.disk = st.disk)
    ∧ (∀ e, env.save_outcome = SaveOutcome.crashBetween e →
        (refreshDocuments env st).1.disk =
          { faiss := some (preprocessDocuments (loadDocuments env)),
            pkl := st.disk.pkl }) := by
  refine ⟨fun hs => ?_, fun e hs => ?_, fun e hs => ?_⟩ <;>
    rw [refreshDocuments_eq] <;> simp [hne, hb, hs]

/-- Claim C4 witness: a completed save replaces the persisted index in
place, at a concrete input. -/
theorem persist_in_place_witness :
    (refreshDocuments envGood stDisk).1.disk =
      { faiss := some (preprocessDocuments (loadDocuments envGood)),
        pkl := some (preprocessDocuments (loadDocuments envGood)) } :=
  (persist_in_place envGood stDisk (by decide) rfl).1 rfl

/-- Claim C7: staleness is checked lazily by the query path, not by a
background timer: the check triggers a rebuild exactly when last_refresh is
unset or the elapsed time has reached refresh_interval, and a query
arriving strictly before the interval elapses leaves the state untouched
and triggers no rebuild. -/
theorem staleness_check (env : Env) (st : ChatbotState) :
    ((checkAndRefresh env st).1.refresh_count = st.refresh_count + 1 ↔
      (st.last_refresh = none ∨
        ∃ t, st.last_refresh = some t ∧ st.refresh_interval ≤ env.now - t))
    ∧ (∀ t, st.last_refresh = some t → env.now - t < st.refresh_interval →
        checkAndRefresh env st = (st, none))
    ∧ (∀ q : String, (query env st q).1 = (checkAndRefresh env st).1) := by
  have hcount := refreshDocuments_count env st
  refine ⟨?_, ?_, ?_⟩
  · cases hlr : st.last_refresh with
    | none =>
      simp only [checkAndRefresh, hlr]
      simp [hcount]
    | some t =>
      by_cases hi : st.refresh_interval ≤ env.now - t
      · simp only [checkAndRefresh, hlr]
        rw [if_pos hi]
        cases hr : (refreshDocuments env st).2 with
        | some e => simp [hr, hcount, hi]
        | none =>
          simp [hr, (initializeQAChain_frame (refreshDocuments env st).1).1,
            hcount, hi]
      · simp only [checkAndRefresh, hlr]
        rw [if_neg hi]
        simp [hi]
  · intro t hlr hlt
    simp only [checkAndRefresh, hlr]
    rw [if_neg (not_le.mpr hlt)]
  · intro q
    unfold query
    cases hc : (checkAndRefresh env st).2 with
    | some e => simp [hc]
    | none =>
      cases hr : runQAChain env (checkAndRefresh env st).1 with
      | ok r => simp [hc, hr]
      | error e => simp [hc, hr]

/-- Claim C7 witness: a query-time check strictly inside the interval is a
no-op, at a concrete input. -/
theorem staleness_check_witness :
    checkAndRefresh envQaDown stInit = (stInit, none) :=
  (staleness_check envQaDown stInit).2.1 0 rfl (by decide)

/-- An environment whose loaders find no documents. -/
def envEmpty : Env := { envGood with pdf_load := Except.ok [], now := 9 }

/-- Claim C8: a rebuild over an empty corpus is a no-op that logs a
warning: the in-memory index, the persisted index on disk, the QA chain
and last_refresh all keep their prior values and no exception is raised;
through manual_refresh the same holds whenever the chatbot already holds
an index. -/
theorem empty_corpus_noop (env : Env) (st : ChatbotState)
    (h : loadDocuments env = []) :
    (refreshDocuments env st).1.vector_store = st.vector_store
    ∧ (refreshDocuments env st).1.disk = st.disk
    ∧ (refreshDocuments env st).1.last_refresh = st.last_refresh
    ∧ (refreshDocuments env st).1.qa_chain = st.qa_chain
    ∧ (refreshDocuments env st).1.warn_count = st.warn_count + 1
    ∧ (refreshDocuments env st).2 = none
    ∧ (∀ vs, st.vector_store = some vs →
        (manualRefresh env st).1.vector_store = st.vector_store
        ∧ (manualRefresh env st).1.disk = st.disk
        ∧ (manualRefresh env st).1.last_refresh = st.last_refresh
        ∧ (manualRefresh env st).2 = none) := by
  unfold manualRefresh
  rw [refreshDocuments_eq, if_pos h]
  refine ⟨rfl, rfl, rfl, rfl, rfl, rfl, fun vs hv => ?_⟩
  simp [initializeQAChain, hv]

/-- Claim C8 witness: a manual refresh over an empty corpus leaves a
previously built index untouched, at a concrete input. -/
theorem empty_corpus_noop_witness :
    (refreshDocuments envEmpty stInit).1.vector_store = stInit.vector_store
    ∧ (refreshDocuments envEmpty stInit).1.last_refresh = stInit.last_refresh
    ∧ (refreshDocuments envEmpty stInit).2 = none
    ∧ (manualRefresh envEmpty stInit).1.vector_store = stInit.vector_store :=
  have h := empty_corpus_noop envEmpty stInit rfl
  ⟨h.1, h.2.2.1, h.2.2.2.2.2.1,
    (h.2.2.2.2.2.2 (preprocessDocuments [enhanceDoc doc0]) rfl).1⟩

/-- Claim C10: manual_refresh called when no documents are found and no
index was ever built or loaded: the refresh step is a no-op, and the QA
chain reinitialization then dereferences the absent (None) vector store
and raises an AttributeError to the caller. -/
theorem manual_refresh_none_raises (env : Env) (st : ChatbotState)
    (hv : st.vector_store = none) (h : loadDocuments env = []) :
    (manualRefresh env st).2 =
      some "AttributeError: NoneType object has no attribute as_retriever" := by
  unfold manualRefresh
  rw [refreshDocuments_eq, if_pos h]
  simp [initializeQAChain, hv]

/-- Claim C10 witness: the raise at a concrete input (fresh chatbot state,
empty documents directory). -/
theorem manual_refresh_none_raises_witness :
    (manualRefresh envEmpty st0).2 =
      some "AttributeError: NoneType object has no attribute as_retriever" :=
  manual_refresh_none_raises envEmpty st0 rfl rfl

end CreditChatbot
